import Mathlib

/-!
Shallow embedding of the two material evaluators of the
moose-codeplugin-opalinus repository:

* `OpalinusPermeabilityTensor` — embedded from
  `src/src/OpalinusPermeabilityTensor.C` (the full implementation is in
  the repository).
* `OpalinusElasticityTensor` — only the header
  `src/include/OpalinusElasticityTensor.h` is in the repository; its
  per-quadrature-point behaviour is modelled from the spec where noted.

Machine reals (`Real` / double) are modelled by `ℚ`; 2nd-order tensors
(`RankTwoTensor` / `RealTensorValue`) by `Matrix (Fin 3) (Fin 3) ℚ`;
4th-order tensors (`RankFourTensor`) by `Fin 3 → Fin 3 → Fin 3 → Fin 3 → ℚ`.
A material-property read that may raise an error in the host is modelled
as an `Except String` value; the per-quadrature-point property store is
modelled as a function from the quadrature index.
-/

namespace Opalinus

/-- 2nd-order tensor (`RankTwoTensor` / `RealTensorValue`). -/
abbrev Tensor2 := Matrix (Fin 3) (Fin 3) ℚ

/-- 4th-order tensor (`RankFourTensor`). -/
abbrev Tensor4 := Fin 3 → Fin 3 → Fin 3 → Fin 3 → ℚ

/-- The argument bundle `Moose::ElemQpArg{_current_elem, _qp, _qrule, _q_point[_qp]}`
built at line 95 of `OpalinusPermeabilityTensor.C` (the quadrature rule is
identified by the element here). -/
structure ElemQpArg where
  elem : ℕ
  qp : ℕ
  point : Fin 3 → ℚ

/-- The time state returned by `determineState()` at line 96. -/
structure TimeState where
  time : ℚ

/-- Modelled from the spec: the external `CartesianLocalCoordinateSystem`
collaborator's `rotateLocalToGlobal(T)` contract (spec section 4.3):
`T ← R T Rᵀ` with `R` the local-to-global rotation. -/
def rotateLocalToGlobal (R : Tensor2) (T : Tensor2) : Tensor2 :=
  R * T * R.transpose

/-- State of an `OpalinusPermeabilityTensor` material object: the
configuration members fixed at construction (lines 60-84 of
`OpalinusPermeabilityTensor.C`) together with the three declared
property fields of the host's material-property store. -/
structure OpalinusPermeabilityTensor where
  permeability1 : ℚ
  permeability2 : ℚ
  permeability3 : ℚ
  prefactor_functor : Option (ElemQpArg → TimeState → ℚ)
  prefactor_matprop : Option (ℕ → Except String ℚ)
  input_permeability : Tensor2
  permeability_qp : ℕ → Tensor2
  dpermeability_qp_dvar : ℕ → List Tensor2
  dpermeability_qp_dgradvar : ℕ → List (List Tensor2)

namespace OpalinusPermeabilityTensor

/-- The constructor (lines 60-84): store the configuration, declare the
three properties (default-initialised: zero tensors, empty vectors), build
the diagonal local permeability tensor
`RankTwoTensor(k1, 0, 0, 0, k2, 0, 0, 0, k3)` and rotate it to global
coordinates through the local-coordinate-system collaborator. -/
def construct (R : Tensor2) (k1 k2 k3 : ℚ)
    (pf : Option (ElemQpArg → TimeState → ℚ))
    (pm : Option (ℕ → Except String ℚ)) : OpalinusPermeabilityTensor :=
  { permeability1 := k1
    permeability2 := k2
    permeability3 := k3
    prefactor_functor := pf
    prefactor_matprop := pm
    input_permeability := rotateLocalToGlobal R (Matrix.diagonal ![k1, k2, k3])
    permeability_qp := fun _ => 0
    dpermeability_qp_dvar := fun _ => []
    dpermeability_qp_dgradvar := fun _ => [] }

/-- Lines 93-100: `f` is the functor evaluated at the quadrature point if a
functor is configured, else `1.0`. -/
def functorFactor (s : OpalinusPermeabilityTensor) (arg : ElemQpArg)
    (st : TimeState) : ℚ :=
  match s.prefactor_functor with
  | some fn => fn arg st
  | none => 1

/-- Lines 102-105: `if (_prefactor_matprop && f != 0.0) f *= (*_prefactor_matprop)[_qp]`.
The material-property read happens only when a material property is
configured and `f` is nonzero; its error (if any) propagates. -/
def totalFactor (s : OpalinusPermeabilityTensor) (arg : ElemQpArg)
    (st : TimeState) : Except String ℚ :=
  match s.prefactor_matprop with
  | some mp =>
      if functorFactor s arg st ≠ 0 then
        Except.map (fun m => functorFactor s arg st * m) (mp arg.qp)
      else
        Except.ok (functorFactor s arg st)
  | none => Except.ok (functorFactor s arg st)

/-- Lines 86-111, `computeQpProperties`: if either prefactor is configured,
write `_input_permeability * f` into the permeability slot of the current
quadrature point, else write `_input_permeability` unchanged. -/
def computeQpProperties (s : OpalinusPermeabilityTensor) (arg : ElemQpArg)
    (st : TimeState) : Except String OpalinusPermeabilityTensor :=
  if s.prefactor_functor.isSome || s.prefactor_matprop.isSome then
    Except.map
      (fun f =>
        { s with
          permeability_qp :=
            Function.update s.permeability_qp arg.qp (f • s.input_permeability) })
      (totalFactor s arg st)
  else
    Except.ok
      { s with
        permeability_qp :=
          Function.update s.permeability_qp arg.qp s.input_permeability }

/-- A run: a sequence of `computeQpProperties` calls, stopping at the first
propagated error. -/
def runCalls (s : OpalinusPermeabilityTensor) :
    List (ElemQpArg × TimeState) → Except String OpalinusPermeabilityTensor
  | [] => Except.ok s
  | c :: cs => (s.computeQpProperties c.1 c.2).bind (fun s2 => runCalls s2 cs)

end OpalinusPermeabilityTensor

/-- The three entries of row `i` of a tensor, as a length-3 sequence
(`std::vector<Real>` with three entries). -/
def rowList (R : Tensor2) (i : Fin 3) : List ℚ :=
  [R i 0, R i 1, R i 2]

/-- State of an `OpalinusElasticityTensor` material object, after the
members declared in `src/include/OpalinusElasticityTensor.h` (lines 33-48):
the rotated global stiffness `_Cijkl`, the geological rotation
`_geological_rotation`, the optional `_prefactor_function`, and the four
declared property fields. -/
structure OpalinusElasticityTensor where
  Cijkl : Tensor4
  geological_rotation : Tensor2
  prefactor_function : Option (ℚ → (Fin 3 → ℚ) → ℚ)
  elasticity_tensor : ℕ → Tensor4
  first_local_axis : ℕ → List ℚ
  second_local_axis : ℕ → List ℚ
  normal_local_axis : ℕ → List ℚ

namespace OpalinusElasticityTensor

/-- Modelled from the spec: the implementation file of
`OpalinusElasticityTensor::computeQpProperties` is not in the repository
(only its declaration, `src/include/OpalinusElasticityTensor.h` line 31).
Spec section 4.1, per-quadrature-point contract: if `prefactor_function`
is absent publish the stored global `C` unchanged; if present evaluate the
function at the point's physical coordinates and the current time,
multiply `C` by the scalar, and publish the result; publish the three rows
of `R` as `first_local_axis`, `second_local_axis`, `normal_local_axis`. -/
def computeQpProperties (s : OpalinusElasticityTensor) (qp : ℕ)
    (p : Fin 3 → ℚ) (t : ℚ) : OpalinusElasticityTensor :=
  let Cout : Tensor4 :=
    match s.prefactor_function with
    | some fn => fun i j k l => s.Cijkl i j k l * fn t p
    | none => s.Cijkl
  { s with
    elasticity_tensor := Function.update s.elasticity_tensor qp Cout
    first_local_axis :=
      Function.update s.first_local_axis qp (rowList s.geological_rotation 0)
    second_local_axis :=
      Function.update s.second_local_axis qp (rowList s.geological_rotation 1)
    normal_local_axis :=
      Function.update s.normal_local_axis qp (rowList s.geological_rotation 2) }

end OpalinusElasticityTensor

/-! ### Concrete instances used to witness the theorems -/

/-- A concrete quadrature-point argument. -/
def argW : ElemQpArg := ⟨0, 0, fun _ => 0⟩

/-- A concrete time state. -/
def stW : TimeState := ⟨0⟩

/-- A functor constantly equal to 2. -/
def fnTwo : ElemQpArg → TimeState → ℚ := fun _ _ => 2

/-- A functor constantly equal to 0. -/
def fnZero : ElemQpArg → TimeState → ℚ := fun _ _ => 0

/-- A material property constantly equal to 1/2. -/
def mpHalf : ℕ → Except String ℚ := fun _ => Except.ok (1 / 2)

/-- A material property whose read always raises an error. -/
def mpFail : ℕ → Except String ℚ := fun _ => Except.error "read of prefactor_mat_prop"

/-- A material property constantly equal to 0. -/
def mpZero : ℕ → Except String ℚ := fun _ => Except.ok 0

/-- Permeability material with no prefactor configured. -/
def sNone : OpalinusPermeabilityTensor :=
  OpalinusPermeabilityTensor.construct 1 1 2 3 none none

/-- Permeability material with both prefactors configured. -/
def sBoth : OpalinusPermeabilityTensor :=
  OpalinusPermeabilityTensor.construct 1 1 2 3 (some fnTwo) (some mpHalf)

/-- Permeability material whose functor is zero and whose material-property
read raises. -/
def sZeroF : OpalinusPermeabilityTensor :=
  OpalinusPermeabilityTensor.construct 1 1 2 3 (some fnZero) (some mpFail)

/-- Permeability material with only the material-property prefactor. -/
def sMat : OpalinusPermeabilityTensor :=
  OpalinusPermeabilityTensor.construct 1 1 2 3 none (some mpHalf)

/-- A constant 4th-order tensor. -/
def C4unit : Tensor4 := fun _ _ _ _ => 1

/-- Elasticity material with no prefactor function. -/
def eNone : OpalinusElasticityTensor :=
  ⟨C4unit, 1, none, fun _ => 0, fun _ => [], fun _ => [], fun _ => []⟩

/-- Elasticity material with a prefactor function constantly equal to 0. -/
def eZero : OpalinusElasticityTensor :=
  ⟨C4unit, 1, some (fun _ _ => 0), fun _ => 0, fun _ => [], fun _ => [], fun _ => []⟩

/-! ### Helper lemmas -/

namespace OpalinusPermeabilityTensor

/-- Every successful `computeQpProperties` call only replaces the
permeability slot of the current quadrature point with some tensor. -/
theorem computeQp_ok_shape {s : OpalinusPermeabilityTensor} {arg : ElemQpArg}
    {st : TimeState} {s2 : OpalinusPermeabilityTensor}
    (h : s.computeQpProperties arg st = Except.ok s2) :
    ∃ T, s2 =
      { s with permeability_qp := Function.update s.permeability_qp arg.qp T } := by
  unfold computeQpProperties at h
  by_cases hc : (s.prefactor_functor.isSome || s.prefactor_matprop.isSome) = true
  · rw [if_pos hc] at h
    cases htf : totalFactor s arg st with
    | error e => rw [htf] at h; exact absurd h (by simp [Except.map])
    | ok f =>
        rw [htf] at h
        simp only [Except.map, Except.ok.injEq] at h
        exact ⟨f • s.input_permeability, h.symm⟩
  · rw [if_neg hc] at h
    simp only [Except.ok.injEq] at h
    exact ⟨s.input_permeability, h.symm⟩

/-- A run of successful calls never touches the two derivative fields. -/
theorem runCalls_preserves_deriv :
    ∀ (calls : List (ElemQpArg × TimeState)) (s s2 : OpalinusPermeabilityTensor),
    runCalls s calls = Except.ok s2 →
    s2.dpermeability_qp_dvar = s.dpermeability_qp_dvar ∧
      s2.dpermeability_qp_dgradvar = s.dpermeability_qp_dgradvar := by
  intro calls
  induction calls with
  | nil =>
      intro s s2 h
      simp only [runCalls, Except.ok.injEq] at h
      rw [← h]
      exact ⟨rfl, rfl⟩
  | cons c cs ih =>
      intro s s2 h
      simp only [runCalls] at h
      cases hstep : s.computeQpProperties c.1 c.2 with
      | error e => rw [hstep] at h; exact absurd h (by simp [Except.bind])
      | ok s1 =>
          rw [hstep] at h
          simp only [Except.bind] at h
          obtain ⟨T, hT⟩ := computeQp_ok_shape hstep
          obtain ⟨h1, h2⟩ := ih s1 s2 h
          subst hT
          exact ⟨h1, h2⟩

end OpalinusPermeabilityTensor

/-! ### Claim theorems -/

section Claims

open OpalinusPermeabilityTensor

/-- Claim C1: when both a prefactor functor and a prefactor material
property are configured and the functor evaluates to zero at the current
point, the material-property read is short-circuited — the call succeeds
for every material property `mp`, including one whose read raises — and
the published permeability tensor is the zero tensor. -/
theorem perm_short_circuit_zero_functor
    (s : OpalinusPermeabilityTensor) (arg : ElemQpArg) (st : TimeState)
    (fn : ElemQpArg → TimeState → ℚ) (mp : ℕ → Except String ℚ)
    (hf : s.prefactor_functor = some fn)
    (hm : s.prefactor_matprop = some mp)
    (hz : fn arg st = 0) :
    s.computeQpProperties arg st =
      Except.ok
        { s with
          permeability_qp :=
            Function.update s.permeability_qp arg.qp (0 : Tensor2) } := by
  have hff : functorFactor s arg st = 0 := by
    simp [functorFactor, hf, hz]
  have htf : totalFactor s arg st = Except.ok 0 := by
    simp [totalFactor, hm, hff]
  simp [computeQpProperties, hf, htf, Except.map]

theorem perm_short_circuit_zero_functor_witness :
    sZeroF.computeQpProperties argW stW =
      Except.ok
        { sZeroF with
          permeability_qp :=
            Function.update sZeroF.permeability_qp argW.qp (0 : Tensor2) } :=
  perm_short_circuit_zero_functor sZeroF argW stW fnZero mpFail rfl rfl rfl

/-- Claim C3: with both prefactors configured, a nonzero functor value `f`
and a successfully read material-property value `m`, the published
permeability tensor is `K * (f * m)`, componentwise `K i j * f * m`. -/
theorem perm_both_prefactors_product
    (s : OpalinusPermeabilityTensor) (arg : ElemQpArg) (st : TimeState)
    (fn : ElemQpArg → TimeState → ℚ) (mp : ℕ → Except String ℚ) (f m : ℚ)
    (hf : s.prefactor_functor = some fn)
    (hm : s.prefactor_matprop = some mp)
    (hval : fn arg st = f) (hnz : f ≠ 0)
    (hread : mp arg.qp = Except.ok m) :
    s.computeQpProperties arg st =
      Except.ok
        { s with
          permeability_qp :=
            Function.update s.permeability_qp arg.qp
              ((f * m) • s.input_permeability) } ∧
    ∀ i j : Fin 3,
      ((f * m) • s.input_permeability) i j = s.input_permeability i j * f * m := by
  have hff : functorFactor s arg st = f := by
    simp [functorFactor, hf, hval]
  have htf : totalFactor s arg st = Except.ok (f * m) := by
    simp [totalFactor, hm, hff, hnz, hread, Except.map]
  constructor
  · simp [computeQpProperties, hf, htf, Except.map]
  · intro i j
    simp [Matrix.smul_apply, smul_eq_mul]
    ring

theorem perm_both_prefactors_product_witness :
    (sBoth.computeQpProperties argW stW =
      Except.ok
        { sBoth with
          permeability_qp :=
            Function.update sBoth.permeability_qp argW.qp
              ((2 * (1 / 2 : ℚ)) • sBoth.input_permeability) } ∧
    ∀ i j : Fin 3,
      ((2 * (1 / 2 : ℚ)) • sBoth.input_permeability) i j =
        sBoth.input_permeability i j * 2 * (1 / 2)) :=
  perm_both_prefactors_product sBoth argW stW fnTwo mpHalf 2 (1 / 2)
    rfl rfl rfl (by norm_num) rfl

/-- Claim C4: with neither prefactor configured, every call publishes the
rotated tensor stored at construction unchanged; in particular the
published value is the same at every quadrature point and every time. -/
theorem perm_no_prefactor_constant
    (s : OpalinusPermeabilityTensor) (arg : ElemQpArg) (st : TimeState)
    (hf : s.prefactor_functor = none)
    (hm : s.prefactor_matprop = none) :
    s.computeQpProperties arg st =
      Except.ok
        { s with
          permeability_qp :=
            Function.update s.permeability_qp arg.qp s.input_permeability } ∧
    ∀ (arg2 : ElemQpArg) (st2 : TimeState)
      (s1 s2 : OpalinusPermeabilityTensor),
      s.computeQpProperties arg st = Except.ok s1 →
      s.computeQpProperties arg2 st2 = Except.ok s2 →
      s1.permeability_qp arg.qp = s2.permeability_qp arg2.qp := by
  have hcall : ∀ (a : ElemQpArg) (t : TimeState),
      s.computeQpProperties a t =
        Except.ok
          { s with
            permeability_qp :=
              Function.update s.permeability_qp a.qp s.input_permeability } := by
    intro a t
    simp [computeQpProperties, hf, hm]
  refine ⟨hcall arg st, ?_⟩
  intro arg2 st2 s1 s2 h1 h2
  rw [hcall arg st] at h1
  rw [hcall arg2 st2] at h2
  simp only [Except.ok.injEq] at h1 h2
  rw [← h1, ← h2]
  simp [Function.update_same]

theorem perm_no_prefactor_constant_witness :
    sNone.computeQpProperties argW stW =
      Except.ok
        { sNone with
          permeability_qp :=
            Function.update sNone.permeability_qp argW.qp
              sNone.input_permeability } :=
  (perm_no_prefactor_constant sNone argW stW rfl rfl).1

/-- Claim C5: with only the material-property prefactor configured and a
read value `m`, the scalar starts at `f = 1.0` and is multiplied by the
property value, so the published permeability tensor is `K * m`. -/
theorem perm_matprop_only
    (s : OpalinusPermeabilityTensor) (arg : ElemQpArg) (st : TimeState)
    (mp : ℕ → Except String ℚ) (m : ℚ)
    (hf : s.prefactor_functor = none)
    (hm : s.prefactor_matprop = some mp)
    (hread : mp arg.qp = Except.ok m) :
    functorFactor s arg st = 1 ∧
    totalFactor s arg st = Except.ok (1 * m) ∧
    s.computeQpProperties arg st =
      Except.ok
        { s with
          permeability_qp :=
            Function.update s.permeability_qp arg.qp
              (m • s.input_permeability) } := by
  have hff : functorFactor s arg st = 1 := by
    simp [functorFactor, hf]
  have htf : totalFactor s arg st = Except.ok (1 * m) := by
    simp [totalFactor, hm, hff, hread, Except.map]
  refine ⟨hff, htf, ?_⟩
  simp [computeQpProperties, hm, htf, Except.map]

theorem perm_matprop_only_witness :
    (functorFactor sMat argW stW = 1 ∧
    totalFactor sMat argW stW = Except.ok (1 * (1 / 2 : ℚ)) ∧
    sMat.computeQpProperties argW stW =
      Except.ok
        { sMat with
          permeability_qp :=
            Function.update sMat.permeability_qp argW.qp
              ((1 / 2 : ℚ) • sMat.input_permeability) }) :=
  perm_matprop_only sMat argW stW mpHalf (1 / 2) rfl rfl rfl

/-- Claim C2: for principal permeabilities `k1, k2, k3` and an orthogonal
local-to-global rotation `R` with `det R = 1`, the permeability tensor
stored at construction equals `R * diag(k1, k2, k3) * Rᵀ` and is
symmetric. -/
theorem perm_construct_rotation_symm
    (R : Tensor2) (k1 k2 k3 : ℚ)
    (pf : Option (ElemQpArg → TimeState → ℚ))
    (pm : Option (ℕ → Except String ℚ))
    (hR : R * R.transpose = 1) (hdet : R.det = 1) :
    (construct R k1 k2 k3 pf pm).input_permeability =
      R * Matrix.diagonal ![k1, k2, k3] * R.transpose ∧
    (construct R k1 k2 k3 pf pm).input_permeability.transpose =
      (construct R k1 k2 k3 pf pm).input_permeability := by
  refine ⟨rfl, ?_⟩
  show (R * Matrix.diagonal ![k1, k2, k3] * R.transpose).transpose =
    R * Matrix.diagonal ![k1, k2, k3] * R.transpose
  simp [Matrix.transpose_mul, Matrix.transpose_transpose,
    Matrix.diagonal_transpose, Matrix.mul_assoc]

theorem perm_construct_rotation_symm_witness :
    ((construct 1 1 2 3 none none).input_permeability =
      1 * Matrix.diagonal ![(1 : ℚ), 2, 3] * (1 : Tensor2).transpose ∧
    (construct 1 1 2 3 none none).input_permeability.transpose =
      (construct 1 1 2 3 none none).input_permeability) :=
  perm_construct_rotation_symm 1 1 2 3 none none (by simp) (by simp)

/-- Claim C6: for a constructed permeability material and any successful
run of `computeQpProperties` calls, the two derivative fields
`dPorousFlow_permeability_qp_dvar` and `dPorousFlow_permeability_qp_dgradvar`
have empty outer dimensions at every quadrature point. -/
theorem perm_derivative_fields_empty
    (R : Tensor2) (k1 k2 k3 : ℚ)
    (pf : Option (ElemQpArg → TimeState → ℚ))
    (pm : Option (ℕ → Except String ℚ))
    (calls : List (ElemQpArg × TimeState)) (s2 : OpalinusPermeabilityTensor)
    (h : runCalls (construct R k1 k2 k3 pf pm) calls = Except.ok s2) :
    ∀ qp : ℕ, s2.dpermeability_qp_dvar qp = [] ∧
      s2.dpermeability_qp_dgradvar qp = [] := by
  obtain ⟨h1, h2⟩ := runCalls_preserves_deriv calls _ s2 h
  intro qp
  rw [h1, h2]
  exact ⟨rfl, rfl⟩

theorem perm_derivative_fields_empty_witness :
    sNone.dpermeability_qp_dvar 0 = [] ∧
    sNone.dpermeability_qp_dgradvar 0 = [] :=
  perm_derivative_fields_empty 1 1 2 3 none none [] sNone rfl 0

/-- Claim C10: a successful `computeQpProperties` call writes only the
permeability slot of the current quadrature point: the stored rotated
tensor, the configuration members, the two derivative fields at every
quadrature point, and the permeability slots of all other quadrature
points are unchanged. -/
theorem perm_frame_effect
    (s : OpalinusPermeabilityTensor) (arg : ElemQpArg) (st : TimeState)
    (s2 : OpalinusPermeabilityTensor)
    (h : s.computeQpProperties arg st = Except.ok s2) :
    s2.input_permeability = s.input_permeability ∧
    s2.permeability1 = s.permeability1 ∧
    s2.permeability2 = s.permeability2 ∧
    s2.permeability3 = s.permeability3 ∧
    s2.prefactor_functor = s.prefactor_functor ∧
    s2.prefactor_matprop = s.prefactor_matprop ∧
    s2.dpermeability_qp_dvar = s.dpermeability_qp_dvar ∧
    s2.dpermeability_qp_dgradvar = s.dpermeability_qp_dgradvar ∧
    ∀ q : ℕ, q ≠ arg.qp → s2.permeability_qp q = s.permeability_qp q := by
  obtain ⟨T, hT⟩ := computeQp_ok_shape h
  subst hT
  refine ⟨rfl, rfl, rfl, rfl, rfl, rfl, rfl, rfl, ?_⟩
  intro q hq
  exact Function.update_noteq hq T s.permeability_qp

theorem perm_frame_effect_witness :
    ({ sNone with
        permeability_qp :=
          Function.update sNone.permeability_qp argW.qp
            sNone.input_permeability } :
      OpalinusPermeabilityTensor).input_permeability =
      sNone.input_permeability :=
  (perm_frame_effect sNone argW stW _ rfl).1

/-- Claim C8: if no prefactor function is configured the published
elasticity tensor is the rotated global tensor stored at construction,
unchanged; if one is configured, the published tensor is that tensor
multiplied componentwise by the function value at the quadrature point's
physical coordinates and the current time. -/
theorem elasticity_prefactor_contract
    (e : OpalinusElasticityTensor) (qp : ℕ) (p : Fin 3 → ℚ) (t : ℚ) :
    (e.prefactor_function = none →
      (e.computeQpProperties qp p t).elasticity_tensor qp = e.Cijkl) ∧
    ∀ fn : ℚ → (Fin 3 → ℚ) → ℚ, e.prefactor_function = some fn →
      ∀ i j k l : Fin 3,
        (e.computeQpProperties qp p t).elasticity_tensor qp i j k l =
          e.Cijkl i j k l * fn t p := by
  constructor
  · intro hf
    simp [OpalinusElasticityTensor.computeQpProperties, hf,
      Function.update_same]
  · intro fn hf i j k l
    simp [OpalinusElasticityTensor.computeQpProperties, hf,
      Function.update_same]

theorem elasticity_prefactor_contract_witness :
    (eNone.computeQpProperties 0 (fun _ => 0) 0).elasticity_tensor 0 =
      eNone.Cijkl :=
  (elasticity_prefactor_contract eNone 0 (fun _ => 0) 0).1 rfl

/-- Claim C9: with an orthogonal geological rotation `R` of determinant 1,
every `computeQpProperties` call publishes the three rows of `R` as
`first_local_axis`, `second_local_axis` and `normal_local_axis`, each a
length-3 sequence; the rows form an orthonormal right-handed triad; and
the published axes are identical at every quadrature point of the run. -/
theorem elasticity_local_axes_triad
    (e : OpalinusElasticityTensor) (qp : ℕ) (p : Fin 3 → ℚ) (t : ℚ)
    (hR : e.geological_rotation * e.geological_rotation.transpose = 1)
    (hdet : e.geological_rotation.det = 1) :
    (e.computeQpProperties qp p t).first_local_axis qp =
      rowList e.geological_rotation 0 ∧
    (e.computeQpProperties qp p t).second_local_axis qp =
      rowList e.geological_rotation 1 ∧
    (e.computeQpProperties qp p t).normal_local_axis qp =
      rowList e.geological_rotation 2 ∧
    (∀ i : Fin 3, (rowList e.geological_rotation i).length = 3) ∧
    (∀ i j : Fin 3,
      Matrix.dotProduct (e.geological_rotation i) (e.geological_rotation j) =
        if i = j then 1 else 0) ∧
    crossProduct (e.geological_rotation 0) (e.geological_rotation 1) =
      e.geological_rotation 2 ∧
    ∀ (qp2 : ℕ) (p2 : Fin 3 → ℚ) (t2 : ℚ),
      (e.computeQpProperties qp2 p2 t2).first_local_axis qp2 =
        (e.computeQpProperties qp p t).first_local_axis qp ∧
      (e.computeQpProperties qp2 p2 t2).second_local_axis qp2 =
        (e.computeQpProperties qp p t).second_local_axis qp ∧
      (e.computeQpProperties qp2 p2 t2).normal_local_axis qp2 =
        (e.computeQpProperties qp p t).normal_local_axis qp := by
  have hpub : ∀ (q : ℕ) (pp : Fin 3 → ℚ) (tt : ℚ),
      (e.computeQpProperties q pp tt).first_local_axis q =
        rowList e.geological_rotation 0 ∧
      (e.computeQpProperties q pp tt).second_local_axis q =
        rowList e.geological_rotation 1 ∧
      (e.computeQpProperties q pp tt).normal_local_axis q =
        rowList e.geological_rotation 2 := by
    intro q pp tt
    refine ⟨?_, ?_, ?_⟩ <;>
      simp [OpalinusElasticityTensor.computeQpProperties, Function.update_same]
  obtain ⟨hp1, hp2, hp3⟩ := hpub qp p t
  refine ⟨hp1, hp2, hp3, ?_, ?_, ?_, ?_⟩
  · intro i
    rfl
  · intro i j
    have h := Matrix.ext_iff.mpr hR i j
    simpa [Matrix.mul_apply, Matrix.transpose_apply, Matrix.one_apply,
      Matrix.dotProduct] using h
  · have hinv1 : e.geological_rotation⁻¹ = e.geological_rotation.transpose :=
      Matrix.inv_eq_right_inv hR
    have hinv2 : e.geological_rotation⁻¹ = e.geological_rotation.adjugate :=
      Matrix.inv_eq_right_inv (by rw [Matrix.mul_adjugate, hdet, one_smul])
    have hadj : e.geological_rotation.adjugate =
        e.geological_rotation.transpose := hinv2.symm.trans hinv1
    have h0 : e.geological_rotation.adjugate 0 2 = e.geological_rotation 2 0 := by
      rw [hadj]; simp [Matrix.transpose_apply]
    have h1 : e.geological_rotation.adjugate 1 2 = e.geological_rotation 2 1 := by
      rw [hadj]; simp [Matrix.transpose_apply]
    have h2 : e.geological_rotation.adjugate 2 2 = e.geological_rotation 2 2 := by
      rw [hadj]; simp [Matrix.transpose_apply]
    rw [Matrix.adjugate_fin_three] at h0 h1 h2
    simp only [Matrix.cons_val_zero, Matrix.cons_val_one, Matrix.head_cons,
      Matrix.cons_val_two, Matrix.tail_cons, Matrix.head_fin_const,
      Matrix.cons_val_fin_one, Matrix.of_apply] at h0 h1 h2
    funext j
    fin_cases j <;> simp [cross_apply] <;> linarith [h0, h1, h2]
  · intro qp2 p2 t2
    obtain ⟨hq1, hq2, hq3⟩ := hpub qp2 p2 t2
    exact ⟨hq1.trans hp1.symm, hq2.trans hp2.symm, hq3.trans hp3.symm⟩

theorem elasticity_local_axes_triad_witness :
    (eNone.computeQpProperties 0 (fun _ => 0) 0).first_local_axis 0 =
      rowList eNone.geological_rotation 0 :=
  (elasticity_local_axes_triad eNone 0 (fun _ => 0) 0
    (by simp [eNone]) (by simp [eNone])).1

/-- Claim C7: in either evaluator, a configured prefactor that evaluates
to 0 at the current point makes the published tensor the zero tensor:
(a) permeability with a zero functor value, (b) permeability with a zero
material-property value, (c) elasticity with a zero prefactor-function
value. -/
theorem zero_prefactor_zero_tensor :
    (∀ (s : OpalinusPermeabilityTensor) (arg : ElemQpArg) (st : TimeState)
      (fn : ElemQpArg → TimeState → ℚ) (s2 : OpalinusPermeabilityTensor),
      s.prefactor_functor = some fn → fn arg st = 0 →
      s.computeQpProperties arg st = Except.ok s2 →
      s2.permeability_qp arg.qp = 0) ∧
    (∀ (s : OpalinusPermeabilityTensor) (arg : ElemQpArg) (st : TimeState)
      (mp : ℕ → Except String ℚ) (s2 : OpalinusPermeabilityTensor),
      s.prefactor_matprop = some mp → mp arg.qp = Except.ok 0 →
      s.computeQpProperties arg st = Except.ok s2 →
      s2.permeability_qp arg.qp = 0) ∧
    ∀ (e : OpalinusElasticityTensor) (qp : ℕ) (p : Fin 3 → ℚ) (t : ℚ)
      (fn : ℚ → (Fin 3 → ℚ) → ℚ),
      e.prefactor_function = some fn → fn t p = 0 →
      (e.computeQpProperties qp p t).elasticity_tensor qp = 0 := by
  refine ⟨?_, ?_, ?_⟩
  · intro s arg st fn s2 hf hz h
    have hff : functorFactor s arg st = 0 := by
      simp [functorFactor, hf, hz]
    have htf : totalFactor s arg st = Except.ok 0 := by
      unfold totalFactor
      rw [hff]
      cases s.prefactor_matprop <;> simp
    rw [computeQpProperties] at h
    simp only [hf, Option.isSome_some, Bool.true_or, if_true, htf,
      Except.map, Except.ok.injEq] at h
    rw [← h]
    simp [Function.update_same]
  · intro s arg st mp s2 hm h0 h
    have htf : totalFactor s arg st = Except.ok 0 := by
      unfold totalFactor functorFactor
      rw [hm]
      cases hf : s.prefactor_functor with
      | none => simp [h0, Except.map]
      | some fn =>
          by_cases hz : fn arg st = 0
          · simp [hz]
          · simp [hz, h0, Except.map]
    rw [computeQpProperties] at h
    simp only [hm, Option.isSome_some, Bool.or_true, if_true, htf,
      Except.map, Except.ok.injEq] at h
    rw [← h]
    simp [Function.update_same]
  · intro e qp p t fn hf hz
    simp only [OpalinusElasticityTensor.computeQpProperties, hf,
      Function.update_same]
    funext i j k l
    simp [hz]

theorem zero_prefactor_zero_tensor_witness :
    ({ sZeroF with
        permeability_qp :=
          Function.update sZeroF.permeability_qp argW.qp
            ((0 : ℚ) • sZeroF.input_permeability) } :
      OpalinusPermeabilityTensor).permeability_qp argW.qp = 0 ∧
    (eZero.computeQpProperties 0 (fun _ => 0) 0).elasticity_tensor 0 = 0 :=
  ⟨zero_prefactor_zero_tensor.1 sZeroF argW stW fnZero _ rfl rfl rfl,
   zero_prefactor_zero_tensor.2.2 eZero 0 (fun _ => 0) 0 (fun _ _ => 0)
     rfl rfl⟩

end Claims

end Opalinus
